import Mathlib

/-!
Verification of the `local-run` invocation builder of `faas-cli`
(`commands/local_run.go`).

The builder `buildDockerRun` turns a stack function definition plus run
options into a single `docker run` command line.  We embed it shallowly:

* Go maps (`fnc.Environment`, `opts.extraEnv`, and the map returned by
  `readFiles`) become association lists `List (String × String)`.  The list
  order models the iteration order that Go's (randomized) map `range`
  delivers on one particular call, which is exactly the order in which the
  corresponding `-e=` flags are appended.
* The external collaborators (fprocess derivation, the env-file reader, and
  the filesystem primitives `filepath.Abs`, `os.MkdirAll`, `os.Stat`) are
  parameters: a function argument for `deriveFprocess` and a record `FS`
  for the rest.
* The secrets-directory filesystem operations performed by the builder are
  additionally recorded in an `Effect` trace, so frame properties (what the
  builder touches) are provable.  Reading the environment files is modelled
  only through its outcome `FS.readFiles`.
-/

namespace FaasCli

/-- Resource limits of a function (`stack.FunctionResources`); in Go the
`Limits` field is a nullable pointer, modelled as `Option`. -/
structure FunctionResources where
  memory : String
  cpu : String
deriving DecidableEq, Repr

/-- The part of `stack.Function` consumed by `buildDockerRun`.  `environment`
and later `extraEnv` are Go maps, embedded as association lists whose order
is the iteration order of one call (see module docstring). -/
structure StackFunction where
  image : String
  environment : List (String × String)
  environmentFile : List String
  secrets : List String
  limits : Option FunctionResources
  readOnlyRootFilesystem : Bool
deriving DecidableEq, Repr

/-- `runOptions` from `local_run.go` (output sinks omitted: they carry no
data the builder reads). -/
structure runOptions where
  print : Bool
  port : Int
  network : String
  extraEnv : List (String × String)
deriving DecidableEq, Repr

/-- Modelled from the spec: the external collaborators of the builder that
live outside `local_run.go` — `filepath.Abs`, `os.MkdirAll` (always called
with mode `0o700`), the `os.Stat` existence check, and the generic
"read key=value pairs from files" utility `readFiles`.  Each is specified
only by its outcome, per the spec's interface for external collaborators. -/
structure FS where
  absPath : String → Except String String
  mkdirAll : String → Except String Unit
  fileExists : String → Bool
  readFiles : List String → Except String (List (String × String))

/-- One secrets-directory filesystem operation performed by the builder. -/
inductive Effect where
  | absPath (dir : String)
  | mkdirAll (path : String) (perm : Nat)
  | statFile (path : String)
deriving DecidableEq, Repr

/-- Build errors of `buildDockerRun`, one constructor per `return nil, err`
site.  `missingFiles` carries the fields of Go's `missingFileError`:
the missing secret names (in declaration order) and the resolved
secrets directory. -/
inductive BuildError where
  | fprocessFailed (msg : String)
  | envFileFailed (msg : String)
  | secretsPathFailed (msg : String)
  | mkdirFailed (path : String) (msg : String)
  | missingFiles (missing : List String) (dir : String)
deriving DecidableEq, Repr

/-- Rendering of `missingFileError.Error()`:
`create the following secrets (a, b) in: "dir"`. -/
def missingFileErrorString (missing : List String) (dir : String) : String :=
  "create the following secrets (" ++ String.intercalate ", " missing ++
    ") in: \"" ++ dir ++ "\""

/-- The assembled invocation (`exec.CommandContext(ctx, "docker", args...)`). -/
structure Cmd where
  prog : String
  args : List String
deriving DecidableEq, Repr

/-- `const localSecretsDir = ".secrets"`. -/
def localSecretsDir : String := ".secrets"

/-- An environment flag `fmt.Sprintf("-e=%s=%s", name, value)`. -/
def envFlag (p : String × String) : String := "-e=" ++ p.1 ++ "=" ++ p.2

/-- `dirContainsFiles(dir, names...)`: stats `dir/name` for every name and
collects the missing ones in order; `some missing` models the
`missingFileError` return, `none` models success.  The second component is
the trace of `os.Stat` calls performed. -/
def dirContainsFiles (fs : FS) (dir : String) (names : List String) :
    Option (List String) × List Effect :=
  let missing := names.filter fun n => !(fs.fileExists (dir ++ "/" ++ n))
  (if missing.isEmpty then none else some missing,
   names.map fun n => Effect.statFile (dir ++ "/" ++ n))

/-- The `if len(fnc.Secrets) > 0` block of `buildDockerRun`: resolves the
secrets directory, creates it with mode `0o700`, checks the secret files
unless in print mode, and returns the `--volume=` argument to append
(empty list when the function has no secrets).  The second component is
the trace of filesystem operations performed. -/
def secretsMount (fs : FS) (fnc : StackFunction) (opts : runOptions) :
    Except BuildError (List String) × List Effect :=
  if fnc.secrets.length > 0 then
    match fs.absPath localSecretsDir with
    | .error msg => (.error (.secretsPathFailed msg), [.absPath localSecretsDir])
    | .ok secretsPath =>
      match fs.mkdirAll secretsPath with
      | .error msg =>
          (.error (.mkdirFailed secretsPath msg),
           [.absPath localSecretsDir, .mkdirAll secretsPath 0o700])
      | .ok _ =>
        if !opts.print then
          match dirContainsFiles fs secretsPath fnc.secrets with
          | (some missing, statEffects) =>
              (.error (.missingFiles missing secretsPath),
               [.absPath localSecretsDir, .mkdirAll secretsPath 0o700] ++ statEffects)
          | (none, statEffects) =>
              (.ok ["--volume=" ++ secretsPath ++ ":/var/openfaas/secrets"],
               [.absPath localSecretsDir, .mkdirAll secretsPath 0o700] ++ statEffects)
        else
          (.ok ["--volume=" ++ secretsPath ++ ":/var/openfaas/secrets"],
           [.absPath localSecretsDir, .mkdirAll secretsPath 0o700])
  else (.ok [], [])

/-- `buildDockerRun(ctx, fnc, opts)`, line by line from the source.  The
`args` chain mirrors the Go `append` chain; `deriveFprocess` is the external
entrypoint-derivation collaborator. -/
def buildDockerRun (fs : FS) (deriveFprocess : StackFunction → Except String String)
    (fnc : StackFunction) (opts : runOptions) :
    Except BuildError Cmd × List Effect :=
  let args := ["run", "--rm", "-i", "-p=" ++ toString opts.port ++ ":8080"]
  let args := if opts.network ≠ "" then args ++ ["--network=" ++ opts.network] else args
  match deriveFprocess fnc with
  | .error msg => (.error (.fprocessFailed msg), [])
  | .ok fprocess =>
    let args := args ++ fnc.environment.map envFlag
    match fs.readFiles fnc.environmentFile with
    | .error msg => (.error (.envFileFailed msg), [])
    | .ok moreEnv =>
      let args := args ++ moreEnv.map envFlag
      let args := args ++ opts.extraEnv.map envFlag
      let args := if fnc.readOnlyRootFilesystem then args ++ ["--read-only"] else args
      let args :=
        match fnc.limits with
        | none => args
        | some limits =>
          let args := if limits.memory ≠ "" then
              args ++ ["--memory-reservation=" ++ limits.memory] else args
          if limits.cpu ≠ "" then args ++ ["--cpus=" ++ limits.cpu] else args
      match secretsMount fs fnc opts with
      | (.error e, effects) => (.error e, effects)
      | (.ok volumeArgs, effects) =>
          let args := args ++ volumeArgs
          let args := args ++ ["-e=fprocess=" ++ fprocess]
          let args := args ++ [fnc.image]
          (.ok { prog := "docker", args := args }, effects)

/-- Configuration errors returned by the command's `PreRunE`. -/
inductive ConfigError where
  | experimentalDisabled
  | missingFunctionName
  | tooManyArgs
deriving DecidableEq, Repr

/-- `PreRunE` of `newLocalRunCmd`: refuse unless `OPENFAAS_EXPERIMENTAL` is
set to something other than `"0"`, then require exactly one positional
argument.  `experimentalEnv` is the result of `os.LookupEnv`. -/
def preRunE (experimentalEnv : Option String) (args : List String) :
    Option ConfigError :=
  match experimentalEnv with
  | none => some .experimentalDisabled
  | some v =>
    if v = "0" then some .experimentalDisabled
    else if args.length < 1 then some .missingFunctionName
    else if args.length > 1 then some .tooManyArgs
    else none

/-- Outcome of dispatching the `local-run` command: either a configuration
error from `PreRunE`, or `RunE` was invoked with the given function name. -/
inductive CmdOutcome where
  | configError (e : ConfigError)
  | ranFunction (name : String)
deriving DecidableEq, Repr

/-- Modelled from the spec: the cobra framework contract that `PreRunE` runs
before `RunE` and an error from it aborts the command with no execution
attempted ("reported immediately, no execution attempted").  When `PreRunE`
succeeds, `RunE` calls `runFunction` with `args[0]`. -/
def execLocalRunCmd (experimentalEnv : Option String) (args : List String) :
    CmdOutcome :=
  match preRunE experimentalEnv args with
  | some e => .configError e
  | none => .ranFunction (args.headD "")

/-- Benign filesystem: path resolution prefixes `/abs/`, directory creation
succeeds, every file exists, env files contribute nothing. -/
def fsAll : FS :=
  { absPath := fun d => .ok ("/abs/" ++ d)
    mkdirAll := fun _ => .ok ()
    fileExists := fun _ => true
    readFiles := fun _ => .ok [] }

/-- Same as `fsAll` but no file exists (an empty secrets directory). -/
def fsEmptyDir : FS :=
  { fsAll with fileExists := fun _ => false }

/-- Same as `fsAll` but the environment files contribute the single entry
`B=2`. -/
def fsEnvFile : FS :=
  { fsAll with readFiles := fun _ => .ok [("B", "2")] }

/-- A derivation collaborator that always yields the fprocess `./handler`. -/
def deriveOk : StackFunction → Except String String := fun _ => .ok "./handler"

/-- A minimal function definition used for concrete instances. -/
def fncBase : StackFunction :=
  { image := "img:latest"
    environment := []
    environmentFile := []
    secrets := []
    limits := none
    readOnlyRootFilesystem := false }

/-- Default run options (`--port 8080`, no network, execute mode). -/
def optsBase : runOptions :=
  { print := false, port := 8080, network := "", extraEnv := [] }

/-- The args of a build result, `[]` when the build failed. -/
def argsOf : Except BuildError Cmd × List Effect → List String
  | (.ok c, _) => c.args
  | (.error _, _) => []

end FaasCli

namespace FaasCli

def portFlag (port : Int) : String := "-p=" ++ toString port ++ ":8080"

def networkFlags (opts : runOptions) : List String :=
  if opts.network = "" then [] else ["--network=" ++ opts.network]

def readOnlyFlags (fnc : StackFunction) : List String :=
  if fnc.readOnlyRootFilesystem then ["--read-only"] else []

def memoryFlags (fnc : StackFunction) : List String :=
  match fnc.limits with
  | none => []
  | some l => if l.memory = "" then [] else ["--memory-reservation=" ++ l.memory]

def cpuFlags (fnc : StackFunction) : List String :=
  match fnc.limits with
  | none => []
  | some l => if l.cpu = "" then [] else ["--cpus=" ++ l.cpu]

theorem buildDockerRun_ok_shape (fs : FS) (dfp : StackFunction → Except String String)
    (fnc : StackFunction) (opts : runOptions) (fp : String)
    (moreEnv : List (String × String)) (cmd : Cmd) (effects : List Effect)
    (hfp : dfp fnc = .ok fp)
    (hmore : fs.readFiles fnc.environmentFile = .ok moreEnv)
    (h : buildDockerRun fs dfp fnc opts = (.ok cmd, effects)) :
    ∃ volumeArgs,
      secretsMount fs fnc opts = (.ok volumeArgs, effects) ∧
      cmd.prog = "docker" ∧
      cmd.args = ["run", "--rm", "-i", portFlag opts.port] ++ networkFlags opts
        ++ fnc.environment.map envFlag ++ moreEnv.map envFlag
        ++ opts.extraEnv.map envFlag
        ++ readOnlyFlags fnc ++ memoryFlags fnc ++ cpuFlags fnc
        ++ volumeArgs ++ ["-e=fprocess=" ++ fp, fnc.image] := by
  rcases hsm : secretsMount fs fnc opts with ⟨res, effs2⟩
  simp only [buildDockerRun, hfp, hmore, hsm] at h
  cases res with
  | error e => simp at h
  | ok volumeArgs =>
    simp only [Prod.mk.injEq, Except.ok.injEq] at h
    obtain ⟨hcmd, heff⟩ := h
    subst heff
    refine ⟨volumeArgs, rfl, ?_, ?_⟩
    · rw [← hcmd]
    · rw [← hcmd]
      cases hl : fnc.limits with
      | none =>
        simp only [hl, portFlag, networkFlags, readOnlyFlags, memoryFlags, cpuFlags]
        split_ifs <;> simp_all [List.append_assoc]
      | some l =>
        simp only [hl, portFlag, networkFlags, readOnlyFlags, memoryFlags, cpuFlags]
        split_ifs <;> simp_all [List.append_assoc]

end FaasCli

namespace FaasCli

theorem secretsMount_nil (fs : FS) (fnc : StackFunction) (opts : runOptions)
    (hsec : fnc.secrets = []) : secretsMount fs fnc opts = (.ok [], []) := by
  simp [secretsMount, hsec]

theorem secretsMount_print_ok (fs : FS) (fnc : StackFunction) (opts : runOptions)
    (spath : String)
    (hsec : fnc.secrets ≠ []) (hprint : opts.print = true)
    (habs : fs.absPath localSecretsDir = .ok spath)
    (hmk : fs.mkdirAll spath = .ok ()) :
    secretsMount fs fnc opts =
      (.ok ["--volume=" ++ spath ++ ":/var/openfaas/secrets"],
       [.absPath localSecretsDir, .mkdirAll spath 0o700]) := by
  simp [secretsMount, List.length_pos.mpr hsec, habs, hmk, hprint]

theorem buildDockerRun_eq_of (fs : FS) (dfp : StackFunction → Except String String)
    (fnc : StackFunction) (opts : runOptions) (fp : String)
    (moreEnv : List (String × String)) (volumeArgs : List String) (effects : List Effect)
    (hfp : dfp fnc = .ok fp)
    (hmore : fs.readFiles fnc.environmentFile = .ok moreEnv)
    (hsm : secretsMount fs fnc opts = (.ok volumeArgs, effects)) :
    buildDockerRun fs dfp fnc opts =
      (.ok { prog := "docker",
             args := ["run", "--rm", "-i", portFlag opts.port] ++ networkFlags opts
               ++ fnc.environment.map envFlag ++ moreEnv.map envFlag
               ++ opts.extraEnv.map envFlag
               ++ readOnlyFlags fnc ++ memoryFlags fnc ++ cpuFlags fnc
               ++ volumeArgs ++ ["-e=fprocess=" ++ fp, fnc.image] }, effects) := by
  simp only [buildDockerRun, hfp, hmore, hsm]
  simp only [Prod.mk.injEq, Except.ok.injEq, Cmd.mk.injEq, true_and, and_true]
  cases hl : fnc.limits with
  | none =>
    simp only [hl, portFlag, networkFlags, readOnlyFlags, memoryFlags, cpuFlags]
    split_ifs <;> simp_all [List.append_assoc]
  | some l =>
    simp only [hl, portFlag, networkFlags, readOnlyFlags, memoryFlags, cpuFlags]
    split_ifs <;> simp_all [List.append_assoc]

/-- Claim C7: for a function definition with no secrets the builder performs
no secrets-directory operation (empty effect trace) and the invocation is
exactly the base, environment, read-only and limit flags followed by the
fprocess flag and the image — in particular it contains no volume-mount
flag. -/
theorem buildDockerRun_no_secrets (fs : FS) (dfp : StackFunction → Except String String)
    (fnc : StackFunction) (opts : runOptions) (fp : String)
    (moreEnv : List (String × String))
    (hsec : fnc.secrets = [])
    (hfp : dfp fnc = .ok fp)
    (hmore : fs.readFiles fnc.environmentFile = .ok moreEnv) :
    buildDockerRun fs dfp fnc opts =
      (.ok { prog := "docker",
             args := ["run", "--rm", "-i", portFlag opts.port] ++ networkFlags opts
               ++ fnc.environment.map envFlag ++ moreEnv.map envFlag
               ++ opts.extraEnv.map envFlag
               ++ readOnlyFlags fnc ++ memoryFlags fnc ++ cpuFlags fnc
               ++ ["-e=fprocess=" ++ fp, fnc.image] }, []) := by
  have h := buildDockerRun_eq_of fs dfp fnc opts fp moreEnv [] []
    hfp hmore (secretsMount_nil fs fnc opts hsec)
  simpa using h

/-- Claim C7 witness at a concrete secret-free function. -/
theorem buildDockerRun_no_secrets_witness :
    buildDockerRun fsAll deriveOk fncBase optsBase =
      (.ok { prog := "docker",
             args := ["run", "--rm", "-i", portFlag optsBase.port] ++ networkFlags optsBase
               ++ fncBase.environment.map envFlag ++ ([] : List (String × String)).map envFlag
               ++ optsBase.extraEnv.map envFlag
               ++ readOnlyFlags fncBase ++ memoryFlags fncBase ++ cpuFlags fncBase
               ++ ["-e=fprocess=" ++ "./handler", fncBase.image] }, []) :=
  buildDockerRun_no_secrets fsAll deriveOk fncBase optsBase "./handler" [] rfl rfl rfl

end FaasCli

namespace FaasCli

/-- Claim C1 (amended): the port-publish flag binding the configured host
port to internal port 8080 is always the fourth argument, regardless of
`network`; a non-empty `network` additionally emits a network-attach flag
right after it (it does not suppress the port flag), and an empty `network`
emits no network flag. -/
theorem buildDockerRun_network_port (fs : FS)
    (dfp : StackFunction → Except String String)
    (fnc : StackFunction) (opts : runOptions) (fp : String)
    (moreEnv : List (String × String)) (cmd : Cmd) (effects : List Effect)
    (hfp : dfp fnc = .ok fp)
    (hmore : fs.readFiles fnc.environmentFile = .ok moreEnv)
    (h : buildDockerRun fs dfp fnc opts = (.ok cmd, effects)) :
    (∃ rest, cmd.args =
        ["run", "--rm", "-i", portFlag opts.port] ++ networkFlags opts ++ rest) ∧
    (opts.network = "" → networkFlags opts = []) ∧
    (opts.network ≠ "" → networkFlags opts = ["--network=" ++ opts.network]) := by
  obtain ⟨vol, -, -, hargs⟩ :=
    buildDockerRun_ok_shape fs dfp fnc opts fp moreEnv cmd effects hfp hmore h
  refine ⟨⟨fnc.environment.map envFlag ++ moreEnv.map envFlag
      ++ opts.extraEnv.map envFlag ++ readOnlyFlags fnc ++ memoryFlags fnc
      ++ cpuFlags fnc ++ vol ++ ["-e=fprocess=" ++ fp, fnc.image], ?_⟩, ?_, ?_⟩
  · rw [hargs]; simp [List.append_assoc]
  · intro hn; simp [networkFlags, hn]
  · intro hn; simp [networkFlags, hn]

/-- Claim C1 counterexample: with the non-empty network `mynet` and port
8081 the built invocation still contains the port-publish flag
`-p=8081:8080`, alongside `--network=mynet`. -/
theorem port_flag_present_with_network :
    "-p=8081:8080" ∈ argsOf (buildDockerRun fsAll deriveOk fncBase
      { print := false, port := 8081, network := "mynet", extraEnv := [] }) ∧
    "--network=mynet" ∈ argsOf (buildDockerRun fsAll deriveOk fncBase
      { print := false, port := 8081, network := "mynet", extraEnv := [] }) := by
  decide

/-- Claim C1 witness: the amended theorem applied at a concrete build with a
non-empty network. -/
theorem buildDockerRun_network_port_witness :
    (∃ rest, ["run", "--rm", "-i", "-p=8081:8080", "--network=mynet",
        "-e=fprocess=./handler", "img:latest"] =
        ["run", "--rm", "-i", portFlag 8081]
          ++ networkFlags { print := false, port := 8081, network := "mynet", extraEnv := [] }
          ++ rest) ∧
    (({ print := false, port := 8081, network := "mynet", extraEnv := [] } : runOptions).network = "" →
      networkFlags { print := false, port := 8081, network := "mynet", extraEnv := [] } = []) ∧
    (({ print := false, port := 8081, network := "mynet", extraEnv := [] } : runOptions).network ≠ "" →
      networkFlags { print := false, port := 8081, network := "mynet", extraEnv := [] }
        = ["--network=" ++ "mynet"]) := by
  exact buildDockerRun_network_port fsAll deriveOk fncBase
    { print := false, port := 8081, network := "mynet", extraEnv := [] } "./handler" []
    { prog := "docker",
      args := ["run", "--rm", "-i", "-p=8081:8080", "--network=mynet",
               "-e=fprocess=./handler", "img:latest"] } []
    rfl rfl rfl

/-- Claim C3: on any successful build the derived fprocess environment flag
and the image reference are the final two arguments, in that order, and
every `extraEnv` flag occurs strictly before them. -/
theorem buildDockerRun_fprocess_last (fs : FS)
    (dfp : StackFunction → Except String String)
    (fnc : StackFunction) (opts : runOptions) (fp : String)
    (moreEnv : List (String × String)) (cmd : Cmd) (effects : List Effect)
    (hfp : dfp fnc = .ok fp)
    (hmore : fs.readFiles fnc.environmentFile = .ok moreEnv)
    (h : buildDockerRun fs dfp fnc opts = (.ok cmd, effects)) :
    ∃ pre mid, cmd.args =
      pre ++ opts.extraEnv.map envFlag ++ mid ++ ["-e=fprocess=" ++ fp, fnc.image] := by
  obtain ⟨vol, -, -, hargs⟩ :=
    buildDockerRun_ok_shape fs dfp fnc opts fp moreEnv cmd effects hfp hmore h
  refine ⟨["run", "--rm", "-i", portFlag opts.port] ++ networkFlags opts
      ++ fnc.environment.map envFlag ++ moreEnv.map envFlag,
    readOnlyFlags fnc ++ memoryFlags fnc ++ cpuFlags fnc ++ vol, ?_⟩
  rw [hargs]; simp [List.append_assoc]

/-- Claim C3 witness: at a concrete build with an `extraEnv` entry whose key
is `fprocess`, the derived flag still comes last. -/
theorem buildDockerRun_fprocess_last_witness :
    ∃ pre mid, ["run", "--rm", "-i", "-p=8080:8080", "-e=fprocess=evil",
        "-e=fprocess=./handler", "img:latest"] =
      pre ++ [("fprocess", "evil")].map envFlag ++ mid
        ++ ["-e=fprocess=" ++ "./handler", "img:latest"] := by
  exact buildDockerRun_fprocess_last fsAll deriveOk fncBase
    { print := false, port := 8080, network := "", extraEnv := [("fprocess", "evil")] }
    "./handler" []
    { prog := "docker",
      args := ["run", "--rm", "-i", "-p=8080:8080", "-e=fprocess=evil",
               "-e=fprocess=./handler", "img:latest"] } []
    rfl rfl rfl

/-- Claim C4: on any successful build the environment flags form three
contiguous layers right after the base flags — `fnc.environment`, then the
entries read from the environment files, then `opts.extraEnv`, each mapped
wholesale with no deduplication — so a key occurring in both the definition
environment and `extraEnv` yields two flags, the `extraEnv` one later. -/
theorem buildDockerRun_env_layers (fs : FS)
    (dfp : StackFunction → Except String String)
    (fnc : StackFunction) (opts : runOptions) (fp : String)
    (moreEnv : List (String × String)) (cmd : Cmd) (effects : List Effect)
    (hfp : dfp fnc = .ok fp)
    (hmore : fs.readFiles fnc.environmentFile = .ok moreEnv)
    (h : buildDockerRun fs dfp fnc opts = (.ok cmd, effects)) :
    ∃ post, cmd.args =
      ["run", "--rm", "-i", portFlag opts.port] ++ networkFlags opts
        ++ fnc.environment.map envFlag ++ moreEnv.map envFlag
        ++ opts.extraEnv.map envFlag ++ post := by
  obtain ⟨vol, -, -, hargs⟩ :=
    buildDockerRun_ok_shape fs dfp fnc opts fp moreEnv cmd effects hfp hmore h
  refine ⟨readOnlyFlags fnc ++ memoryFlags fnc ++ cpuFlags fnc ++ vol
      ++ ["-e=fprocess=" ++ fp, fnc.image], ?_⟩
  rw [hargs]; simp [List.append_assoc]

/-- Claim C4 witness: key `A` occurs both in the definition environment and
in `extraEnv`; both flags are emitted, the `extraEnv` one later, with the
env-file layer in between. -/
theorem buildDockerRun_env_layers_witness :
    ∃ post, ["run", "--rm", "-i", "-p=8080:8080", "-e=A=1", "-e=B=2", "-e=A=3",
        "-e=fprocess=./handler", "img:latest"] =
      ["run", "--rm", "-i", portFlag 8080]
        ++ networkFlags { print := false, port := 8080, network := "", extraEnv := [("A", "3")] }
        ++ [("A", "1")].map envFlag ++ [("B", "2")].map envFlag
        ++ [("A", "3")].map envFlag ++ post := by
  exact buildDockerRun_env_layers fsEnvFile deriveOk
    { fncBase with environment := [("A", "1")] }
    { print := false, port := 8080, network := "", extraEnv := [("A", "3")] }
    "./handler" [("B", "2")]
    { prog := "docker",
      args := ["run", "--rm", "-i", "-p=8080:8080", "-e=A=1", "-e=B=2", "-e=A=3",
               "-e=fprocess=./handler", "img:latest"] } []
    rfl rfl rfl

end FaasCli

namespace FaasCli

/-- Claim C8: on any successful build the limit flags occupy their own slot
(after the read-only flag, before the volume flag); `memoryFlags` is
non-empty — a single soft `--memory-reservation=` flag — exactly when
`limits` is present with a non-empty memory, and `cpuFlags` is non-empty — a
single `--cpus=` flag — exactly when `limits` is present with a non-empty
cpu; absence of either never fails the build, the slot is just empty. -/
theorem buildDockerRun_limit_flags (fs : FS)
    (dfp : StackFunction → Except String String)
    (fnc : StackFunction) (opts : runOptions) (fp : String)
    (moreEnv : List (String × String)) (cmd : Cmd) (effects : List Effect)
    (hfp : dfp fnc = .ok fp)
    (hmore : fs.readFiles fnc.environmentFile = .ok moreEnv)
    (h : buildDockerRun fs dfp fnc opts = (.ok cmd, effects)) :
    (∃ pre post, cmd.args = pre ++ memoryFlags fnc ++ cpuFlags fnc ++ post) ∧
    (memoryFlags fnc ≠ [] ↔ ∃ l, fnc.limits = some l ∧ l.memory ≠ "") ∧
    (cpuFlags fnc ≠ [] ↔ ∃ l, fnc.limits = some l ∧ l.cpu ≠ "") := by
  obtain ⟨vol, -, -, hargs⟩ :=
    buildDockerRun_ok_shape fs dfp fnc opts fp moreEnv cmd effects hfp hmore h
  refine ⟨⟨["run", "--rm", "-i", portFlag opts.port] ++ networkFlags opts
      ++ fnc.environment.map envFlag ++ moreEnv.map envFlag
      ++ opts.extraEnv.map envFlag ++ readOnlyFlags fnc,
    vol ++ ["-e=fprocess=" ++ fp, fnc.image], ?_⟩, ?_, ?_⟩
  · rw [hargs]; simp [List.append_assoc]
  · cases hl : fnc.limits with
    | none => simp [memoryFlags, hl]
    | some l => simp only [memoryFlags, hl]; split_ifs <;> simp_all
  · cases hl : fnc.limits with
    | none => simp [cpuFlags, hl]
    | some l => simp only [cpuFlags, hl]; split_ifs <;> simp_all

/-- Claim C8 witness: a concrete build with memory `40m` and cpu `1`. -/
theorem buildDockerRun_limit_flags_witness :
    (∃ pre post, ["run", "--rm", "-i", "-p=8080:8080", "--memory-reservation=40m",
        "--cpus=1", "-e=fprocess=./handler", "img:latest"] =
      pre ++ memoryFlags { fncBase with limits := some { memory := "40m", cpu := "1" } }
        ++ cpuFlags { fncBase with limits := some { memory := "40m", cpu := "1" } } ++ post) ∧
    (memoryFlags { fncBase with limits := some { memory := "40m", cpu := "1" } } ≠ [] ↔
      ∃ l, ({ fncBase with limits := some { memory := "40m", cpu := "1" } } : StackFunction).limits
        = some l ∧ l.memory ≠ "") ∧
    (cpuFlags { fncBase with limits := some { memory := "40m", cpu := "1" } } ≠ [] ↔
      ∃ l, ({ fncBase with limits := some { memory := "40m", cpu := "1" } } : StackFunction).limits
        = some l ∧ l.cpu ≠ "") := by
  exact buildDockerRun_limit_flags fsAll deriveOk
    { fncBase with limits := some { memory := "40m", cpu := "1" } } optsBase "./handler" []
    { prog := "docker",
      args := ["run", "--rm", "-i", "-p=8080:8080", "--memory-reservation=40m",
               "--cpus=1", "-e=fprocess=./handler", "img:latest"] } []
    rfl rfl rfl

/-- Claim C2: with a non-empty secrets list, `print=false`, and at least one
declared secret missing from the resolved secrets directory, the build fails
with the single `missingFiles` error carrying exactly the missing names (in
declaration order) and the resolved directory, and no invocation: the trace
shows one stat per declared secret and nothing else after the directory
setup. -/
theorem buildDockerRun_missing_secrets_error (fs : FS)
    (dfp : StackFunction → Except String String)
    (fnc : StackFunction) (opts : runOptions) (fp : String)
    (moreEnv : List (String × String)) (spath : String)
    (hsec : fnc.secrets ≠ []) (hprint : opts.print = false)
    (hfp : dfp fnc = .ok fp)
    (hmore : fs.readFiles fnc.environmentFile = .ok moreEnv)
    (habs : fs.absPath localSecretsDir = .ok spath)
    (hmk : fs.mkdirAll spath = .ok ())
    (hmiss : fnc.secrets.filter (fun n => !(fs.fileExists (spath ++ "/" ++ n))) ≠ []) :
    buildDockerRun fs dfp fnc opts =
      (.error (.missingFiles
          (fnc.secrets.filter fun n => !(fs.fileExists (spath ++ "/" ++ n))) spath),
       [.absPath localSecretsDir, .mkdirAll spath 0o700]
         ++ fnc.secrets.map fun n => Effect.statFile (spath ++ "/" ++ n)) := by
  have hsm : secretsMount fs fnc opts =
      (.error (.missingFiles
          (fnc.secrets.filter fun n => !(fs.fileExists (spath ++ "/" ++ n))) spath),
       [.absPath localSecretsDir, .mkdirAll spath 0o700]
         ++ fnc.secrets.map fun n => Effect.statFile (spath ++ "/" ++ n)) := by
    simp [secretsMount, List.length_pos.mpr hsec, habs, hmk, hprint,
      dirContainsFiles, hmiss]
  simp [buildDockerRun, hfp, hmore, hsm]

/-- Claim C2 witness: secrets `token` and `api-key`, both absent, aggregated
into one error naming both and the resolved directory. -/
theorem buildDockerRun_missing_secrets_error_witness :
    buildDockerRun fsEmptyDir deriveOk { fncBase with secrets := ["token", "api-key"] }
        optsBase =
      (.error (.missingFiles
          ((["token", "api-key"] : List String).filter
            fun n => !(fsEmptyDir.fileExists ("/abs/.secrets" ++ "/" ++ n))) "/abs/.secrets"),
       [.absPath localSecretsDir, .mkdirAll "/abs/.secrets" 0o700]
         ++ (["token", "api-key"] : List String).map
              fun n => Effect.statFile ("/abs/.secrets" ++ "/" ++ n)) := by
  exact buildDockerRun_missing_secrets_error fsEmptyDir deriveOk
    { fncBase with secrets := ["token", "api-key"] } optsBase "./handler" [] "/abs/.secrets"
    (by decide) rfl rfl rfl rfl rfl (by decide)

/-- Claim C6: with a non-empty secrets list and `print=true` the build
succeeds whenever derivation, env files, path resolution and directory
creation succeed — no secret file is ever stated (the trace holds exactly
the path resolution and the directory creation) — and the invocation
carries the volume-mount flag; no hypothesis constrains `fileExists`, so
this holds even when every declared secret file is absent. -/
theorem buildDockerRun_print_skips_secret_check (fs : FS)
    (dfp : StackFunction → Except String String)
    (fnc : StackFunction) (opts : runOptions) (fp : String)
    (moreEnv : List (String × String)) (spath : String)
    (hsec : fnc.secrets ≠ []) (hprint : opts.print = true)
    (hfp : dfp fnc = .ok fp)
    (hmore : fs.readFiles fnc.environmentFile = .ok moreEnv)
    (habs : fs.absPath localSecretsDir = .ok spath)
    (hmk : fs.mkdirAll spath = .ok ()) :
    ∃ cmd, buildDockerRun fs dfp fnc opts =
        (.ok cmd, [.absPath localSecretsDir, .mkdirAll spath 0o700]) ∧
      ("--volume=" ++ spath ++ ":/var/openfaas/secrets") ∈ cmd.args := by
  have hb := buildDockerRun_eq_of fs dfp fnc opts fp moreEnv _ _ hfp hmore
    (secretsMount_print_ok fs fnc opts spath hsec hprint habs hmk)
  exact ⟨_, hb, by simp⟩

/-- Claim C6 witness: secret `token` declared, secrets directory empty,
`print=true`: the build succeeds and mounts the directory. -/
theorem buildDockerRun_print_skips_secret_check_witness :
    ∃ cmd, buildDockerRun fsEmptyDir deriveOk { fncBase with secrets := ["token"] }
        { optsBase with print := true } =
        (.ok cmd, [.absPath localSecretsDir, .mkdirAll "/abs/.secrets" 0o700]) ∧
      ("--volume=" ++ "/abs/.secrets" ++ ":/var/openfaas/secrets") ∈ cmd.args := by
  exact buildDockerRun_print_skips_secret_check fsEmptyDir deriveOk
    { fncBase with secrets := ["token"] } { optsBase with print := true } "./handler" []
    "/abs/.secrets" (by decide) rfl rfl rfl rfl rfl

/-- Claim C10: with a non-empty secrets list and `print=true` the builder
still resolves the secrets directory and calls the mode-`0o700`
(owner-only) directory creation — the dry run mutates the filesystem — and
performs no per-secret stat: the effect trace is exactly the path
resolution followed by the directory creation, whether or not the creation
call succeeds. -/
theorem buildDockerRun_print_still_creates_dir (fs : FS)
    (dfp : StackFunction → Except String String)
    (fnc : StackFunction) (opts : runOptions) (fp : String)
    (moreEnv : List (String × String)) (spath : String)
    (hsec : fnc.secrets ≠ []) (hprint : opts.print = true)
    (hfp : dfp fnc = .ok fp)
    (hmore : fs.readFiles fnc.environmentFile = .ok moreEnv)
    (habs : fs.absPath localSecretsDir = .ok spath) :
    (buildDockerRun fs dfp fnc opts).2 =
      [.absPath localSecretsDir, .mkdirAll spath 0o700] := by
  rcases hmk : fs.mkdirAll spath with msg | u
  · have hsm : secretsMount fs fnc opts =
        (.error (.mkdirFailed spath msg),
         [.absPath localSecretsDir, .mkdirAll spath 0o700]) := by
      simp [secretsMount, List.length_pos.mpr hsec, habs, hmk]
    simp [buildDockerRun, hfp, hmore, hsm]
  · cases u
    have hb := buildDockerRun_eq_of fs dfp fnc opts fp moreEnv _ _ hfp hmore
      (secretsMount_print_ok fs fnc opts spath hsec hprint habs hmk)
    simp [hb]

/-- Claim C10 witness: dry run with secret `token` on an empty directory —
the trace records the creation call and no stat. -/
theorem buildDockerRun_print_still_creates_dir_witness :
    (buildDockerRun fsEmptyDir deriveOk { fncBase with secrets := ["token"] }
        { optsBase with print := true }).2 =
      [.absPath localSecretsDir, .mkdirAll "/abs/.secrets" 0o700] := by
  exact buildDockerRun_print_still_creates_dir fsEmptyDir deriveOk
    { fncBase with secrets := ["token"] } { optsBase with print := true } "./handler" []
    "/abs/.secrets" (by decide) rfl rfl rfl rfl

/-- Claim C9: whenever `OPENFAAS_EXPERIMENTAL` is unset or set to `"0"` (the
value the code treats as falsy), dispatching the command yields the
experimental-disabled configuration error and `RunE` — function resolution,
build, execution — is never reached. -/
theorem preRunE_disabled_refuses (experimentalEnv : Option String)
    (args : List String)
    (h : experimentalEnv = none ∨ experimentalEnv = some "0") :
    execLocalRunCmd experimentalEnv args = .configError .experimentalDisabled ∧
    ∀ name, execLocalRunCmd experimentalEnv args ≠ .ranFunction name := by
  have hpre : preRunE experimentalEnv args = some .experimentalDisabled := by
    rcases h with h | h <;> simp [preRunE, h]
  exact ⟨by simp [execLocalRunCmd, hpre], fun name => by simp [execLocalRunCmd, hpre]⟩

/-- Claim C9 witness: variable unset, one well-formed argument. -/
theorem preRunE_disabled_refuses_witness :
    execLocalRunCmd none ["stronghash"] = .configError .experimentalDisabled ∧
    ∀ name, execLocalRunCmd none ["stronghash"] ≠ .ranFunction name := by
  exact preRunE_disabled_refuses none ["stronghash"] (Or.inl rfl)

end FaasCli

namespace FaasCli

/-- Claim C5 (amended): the builder is a pure function of its inputs
*including* the iteration order of the environment map: for two function
definitions equal except for the iteration order of `environment`
(a permutation), successful builds produce command lines that are
permutations of each other — same program and same multiset of flags — but
not necessarily byte-for-byte equal, because the builder imposes no stable
order of its own (see the counterexample).  The same argument applies
symmetrically to the env-file and `extraEnv` layers. -/
theorem buildDockerRun_perm_invariant (fs : FS)
    (dfp : StackFunction → Except String String)
    (fnc1 fnc2 : StackFunction) (opts : runOptions) (fp : String)
    (moreEnv : List (String × String)) (c1 c2 : Cmd) (e1 e2 : List Effect)
    (hperm : fnc1.environment.Perm fnc2.environment)
    (himg : fnc1.image = fnc2.image)
    (henvf : fnc1.environmentFile = fnc2.environmentFile)
    (hsecr : fnc1.secrets = fnc2.secrets)
    (hlim : fnc1.limits = fnc2.limits)
    (hro : fnc1.readOnlyRootFilesystem = fnc2.readOnlyRootFilesystem)
    (hfp1 : dfp fnc1 = .ok fp) (hfp2 : dfp fnc2 = .ok fp)
    (hmore : fs.readFiles fnc1.environmentFile = .ok moreEnv)
    (h1 : buildDockerRun fs dfp fnc1 opts = (.ok c1, e1))
    (h2 : buildDockerRun fs dfp fnc2 opts = (.ok c2, e2)) :
    c1.prog = c2.prog ∧ c1.args.Perm c2.args := by
  have hmore2 : fs.readFiles fnc2.environmentFile = .ok moreEnv := henvf ▸ hmore
  obtain ⟨vol1, hsm1, hp1, hargs1⟩ :=
    buildDockerRun_ok_shape fs dfp fnc1 opts fp moreEnv c1 e1 hfp1 hmore h1
  obtain ⟨vol2, hsm2, hp2, hargs2⟩ :=
    buildDockerRun_ok_shape fs dfp fnc2 opts fp moreEnv c2 e2 hfp2 hmore2 h2
  have hsm12 : secretsMount fs fnc1 opts = secretsMount fs fnc2 opts := by
    unfold secretsMount; rw [hsecr]
  have hvol : vol1 = vol2 := by
    have h12 := (hsm1.symm.trans hsm12).trans hsm2
    simp only [Prod.mk.injEq, Except.ok.injEq] at h12
    exact h12.1
  have hro2 : readOnlyFlags fnc2 = readOnlyFlags fnc1 := by
    unfold readOnlyFlags; rw [hro]
  have hmem2 : memoryFlags fnc2 = memoryFlags fnc1 := by
    unfold memoryFlags; rw [hlim]
  have hcpu2 : cpuFlags fnc2 = cpuFlags fnc1 := by
    unfold cpuFlags; rw [hlim]
  rw [hro2, hmem2, hcpu2, ← himg, ← hvol] at hargs2
  refine ⟨hp1.trans hp2.symm, ?_⟩
  have he1 : c1.args =
      (["run", "--rm", "-i", portFlag opts.port] ++ networkFlags opts)
        ++ (fnc1.environment.map envFlag
        ++ (moreEnv.map envFlag ++ (opts.extraEnv.map envFlag
        ++ (readOnlyFlags fnc1 ++ (memoryFlags fnc1 ++ (cpuFlags fnc1
        ++ (vol1 ++ ["-e=fprocess=" ++ fp, fnc1.image]))))))) := by
    rw [hargs1]; simp [List.append_assoc]
  have he2 : c2.args =
      (["run", "--rm", "-i", portFlag opts.port] ++ networkFlags opts)
        ++ (fnc2.environment.map envFlag
        ++ (moreEnv.map envFlag ++ (opts.extraEnv.map envFlag
        ++ (readOnlyFlags fnc1 ++ (memoryFlags fnc1 ++ (cpuFlags fnc1
        ++ (vol1 ++ ["-e=fprocess=" ++ fp, fnc1.image]))))))) := by
    rw [hargs2]; simp [List.append_assoc]
  rw [he1, he2]
  exact (List.Perm.refl _).append ((hperm.map envFlag).append (List.Perm.refl _))

/-- Claim C5 counterexample: the same environment map `A=1, B=2` handed to
the builder in its two possible iteration orders yields different
command lines, so the output is not byte-for-byte stable across calls —
the builder relies on the incidental map order rather than a chosen one. -/
theorem map_iteration_order_changes_output :
    ([("A", "1"), ("B", "2")] : List (String × String)).Perm [("B", "2"), ("A", "1")] ∧
    argsOf (buildDockerRun fsAll deriveOk
        { fncBase with environment := [("A", "1"), ("B", "2")] } optsBase) ≠
      argsOf (buildDockerRun fsAll deriveOk
        { fncBase with environment := [("B", "2"), ("A", "1")] } optsBase) := by
  decide

/-- Claim C5 witness: the amended theorem applied at the counterexample's
two iteration orders — the outputs are permutations of each other. -/
theorem buildDockerRun_perm_invariant_witness :
    ("docker" : String) = "docker" ∧
    (["run", "--rm", "-i", "-p=8080:8080", "-e=A=1", "-e=B=2",
      "-e=fprocess=./handler", "img:latest"] : List String).Perm
      ["run", "--rm", "-i", "-p=8080:8080", "-e=B=2", "-e=A=1",
       "-e=fprocess=./handler", "img:latest"] := by
  exact buildDockerRun_perm_invariant fsAll deriveOk
    { fncBase with environment := [("A", "1"), ("B", "2")] }
    { fncBase with environment := [("B", "2"), ("A", "1")] } optsBase "./handler" []
    { prog := "docker",
      args := ["run", "--rm", "-i", "-p=8080:8080", "-e=A=1", "-e=B=2",
               "-e=fprocess=./handler", "img:latest"] }
    { prog := "docker",
      args := ["run", "--rm", "-i", "-p=8080:8080", "-e=B=2", "-e=A=1",
               "-e=fprocess=./handler", "img:latest"] } [] []
    (by decide) rfl rfl rfl rfl rfl rfl rfl rfl rfl rfl

end FaasCli
